import Mathlib

/-!
Verification of the webclaw gateway connection layer.

This development is a shallow embedding of the persistent gateway
connection in src/server/gateway.ts (class PersistentGatewayConnection)
and of the SSE stream bridge in src/routes/api/stream.ts.  JavaScript
objects are modelled by a JSON value type, the connection singleton by an
explicit state record, and the asynchronous callbacks (timers, socket
events, inbound frames) by step functions on that state.  Promise
resolutions and rejections are recorded in an append-only completion log
so that properties such as "a caller is never resolved twice" become
statements about the log.
-/

namespace Webclaw

/-- JSON-like runtime values, used for frame payloads and event payloads. -/
inductive Json where
  | null
  | bool (b : Bool)
  | num (n : Int)
  | str (s : String)
  | arr (elems : List Json)
  | obj (fields : List (String × Json))

/-- Property access on a JSON value: the first binding of a field of an
object, and no binding on any non-object (mirroring that reading a
property of a non-object JS value yields undefined). -/
def Json.get : Json → String → Option Json
  | .obj fields, key => fields.lookup key
  | _, _ => none

/-- The value of a field when it is a string, mirroring
a source check that the field holds a string (typeof equals string). -/
def Json.getStr (j : Json) (key : String) : Option String :=
  match j.get key with
  | some (.str s) => some s
  | _ => none

/-- JavaScript truthiness of a JSON value. -/
def jsTruthy : Json → Bool
  | .null => false
  | .bool b => b
  | .num n => n != 0
  | .str s => !s.isEmpty
  | .arr _ => true
  | .obj _ => true

/-- Nullish coalescing a ?? b on optional JSON values: a field that is
absent (none) or bound to null falls through to the right operand. -/
def jsNullish (a b : Option Json) : Option Json :=
  match a with
  | some Json.null => b
  | none => b
  | some v => some v

/-- A parsed inbound event frame, as built from a frame
of type event in the message handler of gateway.ts. -/
structure GatewayEvent where
  event : String
  payload : Json
  seq : Option Int := none

/-- The error object of a response frame with ok false. -/
structure ErrInfo where
  code : String
  message : String
  details : Option Json := none

/-- How a pending RPC promise was settled.  The source rejects with an
Error carrying only a message string, so a rejection is modelled by
that message. -/
inductive RpcOutcome where
  | resolved (payload : Option Json)
  | rejected (msg : String)

/-- The capability returned by subscribe in gateway.ts.  The returned
closure captures the listener Set object itself (not the key lookup), so
the model records the identity of the captured set. -/
structure Unsub where
  setId : Nat
  key : String
  listener : Nat

/-- The mutable state of the PersistentGatewayConnection singleton.
Listener Sets are heap objects (identified by a Nat) because the
unsubscribe closures capture the Set object; the session-listener map
maps a session key to the identity of its current Set.  The completions
field is the log of promise settlements of pending RPCs. -/
structure GatewayState where
  ws : Option (Nat × Bool) := none
  connected : Bool := false
  connectPromise : Option Nat := none
  pending : List String := []
  completions : List (String × RpcOutcome) := []
  reconnectTimer : Option Nat := none
  reconnectDelay : Nat := 1000
  destroyed : Bool := false
  nextSetId : Nat := 0
  heap : List (Nat × List Nat) := []
  keyMap : List (String × Nat) := []
  globalListeners : List Nat := []
  nextSocketId : Nat := 0
  attemptsStarted : Nat := 0

/-- Fresh initial state of the singleton. -/
def initialState : GatewayState := {}

/-- maxReconnectDelay field of the class. -/
def maxReconnectDelay : Nat := 30000

/-- Default value of the timeoutMs parameters of rpc and of the response
wait helper. -/
def rpcDefaultTimeoutMs : Nat := 30000

/-- An optional timeoutMs argument with its default applied. -/
def rpcTimeoutMs (t : Option Nat) : Nat := t.getD rpcDefaultTimeoutMs

/-- isConnected getter: connected flag set and the socket exists and is
open. -/
def isConnected (s : GatewayState) : Bool :=
  s.connected && (match s.ws with
    | some (_, opened) => opened
    | none => false)

/-- Registration half of the response wait helper: the pending map gains
an entry for the fresh request id (the timer is created at the same
time; an id is in the pending map exactly while its timer is live). -/
def registerCall (s : GatewayState) (id : String) : GatewayState :=
  { s with pending := s.pending ++ [id] }

/-- The timeout callback of the response wait helper.  It runs only while
the timer is live, i.e. while the id is still pending; it removes the
pending entry and rejects the caller with the RPC timeout error. -/
def onRpcTimeout (s : GatewayState) (id : String) : GatewayState :=
  if s.pending.contains id then
    { s with pending := s.pending.erase id,
             completions := s.completions ++
               [(id, RpcOutcome.rejected ("RPC timeout waiting for " ++ id))] }
  else s

/-- The response branch of the message handler: a response frame settles
the matching pending call (resolve on ok with the payload, reject with
the error message or a fallback) and is silently ignored when no pending
call matches its id. -/
def onResponseFrame (s : GatewayState) (id : String) (ok : Bool)
    (payload : Option Json) (error : Option ErrInfo) : GatewayState :=
  if s.pending.contains id then
    let outcome := if ok then RpcOutcome.resolved payload
      else RpcOutcome.rejected ((error.map ErrInfo.message).getD "gateway error")
    { s with pending := s.pending.erase id,
             completions := s.completions ++ [(id, outcome)] }
  else s

/-- scheduleReconnect: a no-op when a reconnect timer is already pending;
otherwise arms a timer with the current backoff delay and doubles the
stored delay up to the ceiling. -/
def scheduleReconnect (s : GatewayState) : GatewayState :=
  match s.reconnectTimer with
  | some _ => s
  | none =>
    { s with reconnectTimer := some s.reconnectDelay,
             reconnectDelay := min (s.reconnectDelay * 2) maxReconnectDelay }

/-- The socket close handler: drops the socket, rejects every pending
call with the connection-closed error, clears the pending map, and
schedules a reconnect unless the manager is destroyed. -/
def onClose (s : GatewayState) : GatewayState :=
  let s1 := { s with
    connected := false
    ws := none
    completions := s.completions ++
      s.pending.map (fun id => (id, RpcOutcome.rejected "Connection closed"))
    pending := [] }
  if s1.destroyed then s1 else scheduleReconnect s1

/-- What a call of ensureConnected did. -/
inductive EnsureAction where
  | alreadyConnected
  | awaitExisting (attempt : Nat)
  | started (attempt : Nat)

/-- ensureConnected: returns at once when connected, awaits the in-flight
attempt when one exists, and otherwise starts a new connect attempt
(storing its promise so concurrent callers share it). -/
def ensureConnectedStep (s : GatewayState) : GatewayState × EnsureAction :=
  if isConnected s then (s, EnsureAction.alreadyConnected)
  else
    match s.connectPromise with
    | some a => (s, EnsureAction.awaitExisting a)
    | none =>
      let a := s.attemptsStarted
      ({ s with connectPromise := some a, attemptsStarted := a + 1 },
        EnsureAction.started a)

/-- The head of a connect attempt: it throws at once on a destroyed
manager and otherwise opens exactly one new socket (initially not yet
open). -/
def connectBegin (s : GatewayState) : Except String GatewayState :=
  if s.destroyed then Except.error "Connection destroyed"
  else Except.ok { s with ws := some (s.nextSocketId, false),
                          nextSocketId := s.nextSocketId + 1 }

/-- The open event of the socket. -/
def onSocketOpen (s : GatewayState) : GatewayState :=
  { s with ws := s.ws.map (fun p => (p.1, true)) }

/-- Successful completion of the connect handshake: mark connected and
reset the backoff delay to its floor. -/
def connectSuccess (s : GatewayState) : GatewayState :=
  { s with connected := true, reconnectDelay := 1000 }

/-- The finally clause of ensureConnected: the shared connect promise is
cleared once the attempt settles. -/
def connectSettle (s : GatewayState) : GatewayState :=
  { s with connectPromise := none }

/-- destroy: sets the terminal flag, cancels the reconnect timer, closes
and drops the socket, and clears both listener registries.  The returned
Bool records whether a socket close was triggered (its close event then
runs the close handler). -/
def destroy (s : GatewayState) : GatewayState × Bool :=
  (({ s with
      destroyed := true
      reconnectTimer := none
      ws := none
      connected := false
      keyMap := []
      globalListeners := [] }),
   s.ws.isSome)

/-- The reconnect timer callback: clears the timer and retries
ensureConnected; a failing connect settles the shared promise and is
otherwise swallowed (the close handler drives the next attempt). -/
def onReconnectFire (s : GatewayState) : GatewayState :=
  match s.reconnectTimer with
  | none => s
  | some _ =>
    let s1 := { s with reconnectTimer := none }
    let r := ensureConnectedStep s1
    match r.2 with
    | EnsureAction.started _ =>
      match connectBegin r.1 with
      | Except.ok s3 => s3
      | Except.error _ => connectSettle r.1
    | _ => r.1

/-- Session-key extraction from an event payload: a top-level sessionKey
string field, else a top-level session string field, else a sessionKey
string field of a truthy data field, else no key. -/
def extractSessionKey (payload : Json) : Option String :=
  match payload.getStr "sessionKey" with
  | some s => some s
  | none =>
    match payload.getStr "session" with
    | some s => some s
    | none =>
      match payload.get "data" with
      | some d => if jsTruthy d then d.getStr "sessionKey" else none
      | none => none

/-- Set.add on a heap of listener sets: appends the listener to the set
with the given identity unless it is already a member. -/
def heapAdd (h : List (Nat × List Nat)) (sid l : Nat) : List (Nat × List Nat) :=
  h.map (fun e => if e.1 == sid then
    (e.1, if e.2.contains l then e.2 else e.2 ++ [l]) else e)

/-- Set.delete on a heap of listener sets. -/
def heapDel (h : List (Nat × List Nat)) (sid l : Nat) : List (Nat × List Nat) :=
  h.map (fun e => if e.1 == sid then (e.1, e.2.filter (fun x => x != l)) else e)

/-- The members of the set with the given identity. -/
def heapGet (h : List (Nat × List Nat)) (sid : Nat) : List Nat :=
  (h.lookup sid).getD []

/-- subscribe: adds the listener to the existing Set of the key, or
creates a fresh Set for the key; returns the unsubscribe capability,
which captures the Set object itself. -/
def subscribe (s : GatewayState) (key : String) (l : Nat) :
    GatewayState × Unsub :=
  match s.keyMap.lookup key with
  | some sid => ({ s with heap := heapAdd s.heap sid l }, ⟨sid, key, l⟩)
  | none =>
    let sid := s.nextSetId
    ({ s with
       nextSetId := sid + 1
       heap := s.heap ++ [(sid, [l])]
       keyMap := s.keyMap ++ [(key, sid)] }, ⟨sid, key, l⟩)

/-- Calling an unsubscribe capability: deletes the listener from the
captured Set, and when that Set is then empty deletes the key from the
session-listener map (unconditionally, even if the key meanwhile maps to
a different, newer Set). -/
def callUnsub (s : GatewayState) (u : Unsub) : GatewayState :=
  let heap1 := heapDel s.heap u.setId u.listener
  if (heapGet heap1 u.setId).isEmpty then
    { s with heap := heap1, keyMap := s.keyMap.filter (fun e => e.1 != u.key) }
  else
    { s with heap := heap1 }

/-- subscribeAll: adds a global listener. -/
def subscribeAll (s : GatewayState) (l : Nat) : GatewayState :=
  { s with globalListeners :=
      if s.globalListeners.contains l then s.globalListeners
      else s.globalListeners ++ [l] }

/-- The listeners currently registered for a session key. -/
def keyListeners (s : GatewayState) (k : String) : List Nat :=
  match s.keyMap.lookup k with
  | some sid => heapGet s.heap sid
  | none => []

/-- The behaviour of listener callbacks: a listener either returns or
throws. -/
def ListenerBeh := Nat → GatewayEvent → Except String Unit

/-- The dispatch loop over one listener collection.  Each call is wrapped
in a try-catch that discards the exception, so the loop invokes every
listener and continues regardless of the outcome; the result is the
trace of invoked listeners in order. -/
def runListenersCatching (beh : ListenerBeh) :
    List Nat → GatewayEvent → List Nat
  | [], _ => []
  | l :: rest, ev =>
    match beh l ev with
    | Except.ok _ => l :: runListenersCatching beh rest ev
    | Except.error _ => l :: runListenersCatching beh rest ev

/-- The event branch of the message handler: extract the session key,
notify every global listener, then notify the listeners of the extracted
key, if any.  The result is the trace of invoked listeners. -/
def dispatchEventFrame (beh : ListenerBeh) (s : GatewayState)
    (ev : GatewayEvent) : List Nat :=
  let globalTrace := runListenersCatching beh s.globalListeners ev
  match extractSessionKey ev.payload with
  | some k => globalTrace ++ runListenersCatching beh (keyListeners s k) ev
  | none => globalTrace

/-- The externally triggered transitions of the connection singleton:
inbound frames, timer firings, socket events, API calls. -/
inductive GEvent where
  | frameRes (id : String) (ok : Bool) (payload : Option Json)
      (error : Option ErrInfo)
  | frameEvent (ev : GatewayEvent)
  | rpcTimeoutFire (id : String)
  | callRegister (id : String)
  | socketClose
  | socketOpen
  | reconnectFire
  | ensureCall
  | connectSettled
  | connectOk
  | callDestroy
  | subscribeCall (key : String) (l : Nat)
  | unsubscribeCall (u : Unsub)

/-- One transition of the connection singleton. -/
def stepEvent (s : GatewayState) : GEvent → GatewayState
  | GEvent.frameRes id ok payload error => onResponseFrame s id ok payload error
  | GEvent.frameEvent _ => s
  | GEvent.rpcTimeoutFire id => onRpcTimeout s id
  | GEvent.callRegister id => registerCall s id
  | GEvent.socketClose => onClose s
  | GEvent.socketOpen => onSocketOpen s
  | GEvent.reconnectFire => onReconnectFire s
  | GEvent.ensureCall => (ensureConnectedStep s).1
  | GEvent.connectSettled => connectSettle s
  | GEvent.connectOk => connectSuccess s
  | GEvent.callDestroy => (destroy s).1
  | GEvent.subscribeCall key l => (subscribe s key l).1
  | GEvent.unsubscribeCall u => callUnsub s u

/-- A run of the singleton over a list of transitions. -/
def runEvents (s : GatewayState) (evs : List GEvent) : GatewayState :=
  evs.foldl stepEvent s

/-- How often the completion log settles a given call id. -/
def completedCount (s : GatewayState) (id : String) : Nat :=
  s.completions.countP (fun c => c.1 == id)

/-- Whether a transition registers the given call id. -/
def isRegister (id : String) : GEvent → Bool
  | GEvent.callRegister i => i == id
  | _ => false

/-- How often a run registers the given call id. -/
def countRegisters (evs : List GEvent) (id : String) : Nat :=
  evs.countP (isRegister id)

/-- n repeated calls of ensureConnected. -/
def ensureIter : Nat → GatewayState → GatewayState
  | 0, s => s
  | n + 1, s => ensureIter n (ensureConnectedStep s).1

/-! The SSE Stream Bridge of src/routes/api/stream.ts: the per-request
listener that translates gateway events into SSE messages. -/

/-- The per-bridge mutable flags of the SSE route handler. -/
structure BridgeState where
  closed : Bool := false
  gotAgentStream : Bool := false

/-- One SSE message written to the response stream. -/
inductive SseMsg where
  | delta (text : String) (sessionKey : String)
  | tool (name status callId : Json) (sessionKey : String)
  | done (sessionKey : String) (status : String) (error : Option Json)

/-- sendSSE: write the message unless the stream was closed. -/
def sendSSE (st : BridgeState) (m : SseMsg) : List SseMsg :=
  if st.closed then [] else [m]

/-- The assistant-text selection: the text string field, else the delta
string field, else the empty string. -/
def textOrDelta (payload : Json) : String :=
  match payload.getStr "text" with
  | some t => t
  | none =>
    match payload.getStr "delta" with
    | some d => d
    | none => ""

/-- One invocation of the bridge listener on a delivered event,
returning the updated flags and the SSE messages written. -/
def bridgeStep (sessionKey : String) (st : BridgeState) (evt : GatewayEvent) :
    BridgeState × List SseMsg :=
  if evt.event = "agent" then
    let payload := evt.payload
    let agentStream := payload.getStr "stream"
    if agentStream = some "assistant" then
      let st1 := { st with gotAgentStream := true }
      let text := textOrDelta payload
      if text = "" then (st1, [])
      else (st1, sendSSE st1 (SseMsg.delta text sessionKey))
    else if agentStream = some "tool" then
      let st1 := { st with gotAgentStream := true }
      (st1, sendSSE st1 (SseMsg.tool
        ((jsNullish (payload.get "name") (payload.get "toolName")).getD
          (Json.str ""))
        ((jsNullish (payload.get "phase") (payload.get "status")).getD
          (Json.str "running"))
        ((jsNullish (payload.get "id") (payload.get "toolCallId")).getD
          (Json.str ""))
        sessionKey))
    else if agentStream = some "lifecycle" then
      let phase := payload.getStr "phase"
      if phase = some "end" ∨ phase = some "error" then
        (st, sendSSE st (SseMsg.done sessionKey (phase.getD "")
          (if phase = some "error" then payload.get "error" else none)))
      else (st, [])
    else (st, [])
  else if evt.event = "chat" then
    let payload := evt.payload
    let kind := payload.getStr "kind"
    if kind = some "delta" ∧ st.gotAgentStream = false then
      let text := textOrDelta payload
      if text = "" then (st, [])
      else (st, sendSSE st (SseMsg.delta text sessionKey))
    else if kind = some "final" then
      (st, sendSSE st (SseMsg.done sessionKey "end" none))
    else (st, [])
  else (st, [])

/-- A run of the bridge listener over the sequence of events delivered
to it, collecting all SSE messages written. -/
def bridgeRun (sessionKey : String) (st : BridgeState) :
    List GatewayEvent → BridgeState × List SseMsg
  | [] => (st, [])
  | e :: rest =>
    let r := bridgeStep sessionKey st e
    let r2 := bridgeRun sessionKey r.1 rest
    (r2.1, r.2 ++ r2.2)

/-- Whether an event is of the fine-grained raw-token family that sets
the per-bridge suppression flag: an agent event whose stream is
assistant or tool. -/
def IsRawToken (e : GatewayEvent) : Prop :=
  e.event = "agent" ∧
    (e.payload.getStr "stream" = some "assistant" ∨
     e.payload.getStr "stream" = some "tool")

instance (e : GatewayEvent) : Decidable (IsRawToken e) := by
  unfold IsRawToken
  infer_instance

/-- Whether an event is a coarse-grained buffered-text chat delta. -/
def IsChatDelta (e : GatewayEvent) : Prop :=
  e.event = "chat" ∧ e.payload.getStr "kind" = some "delta"

instance (e : GatewayEvent) : Decidable (IsChatDelta e) := by
  unfold IsChatDelta
  infer_instance

/-! Helper lemmas. -/

/-- The per-listener try-catch makes the dispatch loop invoke every
listener of the collection in order, whatever each listener does. -/
theorem runListenersCatching_eq (beh : ListenerBeh) (ls : List Nat)
    (ev : GatewayEvent) : runListenersCatching beh ls ev = ls := by
  induction ls with
  | nil => rfl
  | cons l rest ih =>
    simp only [runListenersCatching]
    cases beh l ev <;> simp [ih]

theorem dispatch_some (beh : ListenerBeh) (s : GatewayState)
    (ev : GatewayEvent) (k : String)
    (h : extractSessionKey ev.payload = some k) :
    dispatchEventFrame beh s ev = s.globalListeners ++ keyListeners s k := by
  simp [dispatchEventFrame, h, runListenersCatching_eq]

theorem dispatch_none (beh : ListenerBeh) (s : GatewayState)
    (ev : GatewayEvent) (h : extractSessionKey ev.payload = none) :
    dispatchEventFrame beh s ev = s.globalListeners := by
  simp [dispatchEventFrame, h, runListenersCatching_eq]

theorem ensure_fix (s : GatewayState)
    (h : isConnected s = true ∨ s.connectPromise.isSome = true) :
    (ensureConnectedStep s).1 = s := by
  unfold ensureConnectedStep
  rcases h with h | h
  · simp [h]
  · by_cases hc : isConnected s
    · simp [hc]
    · cases hcp : s.connectPromise with
      | none => rw [hcp] at h; simp at h
      | some a => simp [hc, hcp]

theorem ensureIter_fix (n : Nat) (s : GatewayState)
    (h : isConnected s = true ∨ s.connectPromise.isSome = true) :
    ensureIter n s = s := by
  induction n with
  | zero => rfl
  | succ m ih => simp [ensureIter, ensure_fix s h, ih]

theorem ensure_one (s : GatewayState) :
    (isConnected (ensureConnectedStep s).1 = true ∨
      (ensureConnectedStep s).1.connectPromise.isSome = true) ∧
    (ensureConnectedStep s).1.attemptsStarted ≤ s.attemptsStarted + 1 := by
  unfold ensureConnectedStep
  by_cases hc : isConnected s
  · simp [hc]
  · cases hcp : s.connectPromise with
    | none => simp [hc, hcp]
    | some a => simp [hc, hcp]

/-- Settling a pending call moves exactly one pending occurrence of its
id into the completion log: the timeout callback conserves the sum of
completions and pending occurrences of every id. -/
theorem pendCount_onRpcTimeout (s : GatewayState) (id0 id : String) :
    completedCount (onRpcTimeout s id0) id +
      (onRpcTimeout s id0).pending.count id
      = completedCount s id + s.pending.count id := by
  unfold onRpcTimeout completedCount
  by_cases hc : s.pending.contains id0 = true
  · rw [hc]
    by_cases he : id0 = id
    · subst he
      have hm : id0 ∈ s.pending := List.elem_iff.mp hc
      have hpos : 0 < s.pending.count id0 := List.count_pos_iff.mpr hm
      simp [List.countP_append, List.count_erase_self]
      omega
    · have hne : (id0 == id) = false := by simp [he]
      simp [List.countP_append, List.count_erase_of_ne (Ne.symm he), hne]
  · simp at hc
    simp [hc]

/-- The response branch conserves the same sum. -/
theorem pendCount_onResponseFrame (s : GatewayState) (id0 id : String)
    (ok : Bool) (payload : Option Json) (err : Option ErrInfo) :
    completedCount (onResponseFrame s id0 ok payload err) id +
      (onResponseFrame s id0 ok payload err).pending.count id
      = completedCount s id + s.pending.count id := by
  unfold onResponseFrame completedCount
  by_cases hc : s.pending.contains id0 = true
  · rw [hc]
    by_cases he : id0 = id
    · subst he
      have hm : id0 ∈ s.pending := List.elem_iff.mp hc
      have hpos : 0 < s.pending.count id0 := List.count_pos_iff.mpr hm
      simp [List.countP_append, List.count_erase_self]
      omega
    · have hne : (id0 == id) = false := by simp [he]
      simp [List.countP_append, List.count_erase_of_ne (Ne.symm he), hne]
  · simp at hc
    simp [hc]

/-- The close handler converts every pending occurrence into a
completion, conserving the same sum. -/
theorem pendCount_onClose (s : GatewayState) (id : String) :
    completedCount (onClose s) id + (onClose s).pending.count id
      = completedCount s id + s.pending.count id := by
  unfold onClose scheduleReconnect completedCount
  have hmap : List.countP (fun c => c.1 == id)
      (s.pending.map (fun i => (i, RpcOutcome.rejected "Connection closed")))
      = s.pending.count id := by
    rw [List.countP_map]
    rfl
  by_cases hd : s.destroyed
  · simp [hd, List.countP_append, hmap]
  · cases ht : s.reconnectTimer <;>
      simp [hd, ht, List.countP_append, hmap]

/-- ensureConnected does not touch the pending map or the completion
log. -/
theorem ensure_pc (s : GatewayState) :
    (ensureConnectedStep s).1.completions = s.completions ∧
    (ensureConnectedStep s).1.pending = s.pending := by
  unfold ensureConnectedStep
  by_cases hc : isConnected s
  · simp [hc]
  · cases hcp : s.connectPromise <;> simp [hc, hcp]

/-- The reconnect timer callback does not touch the pending map or the
completion log. -/
theorem reconnectFire_pc (s : GatewayState) :
    (onReconnectFire s).completions = s.completions ∧
    (onReconnectFire s).pending = s.pending := by
  unfold onReconnectFire
  cases ht : s.reconnectTimer with
  | none => exact ⟨rfl, rfl⟩
  | some d =>
    have h := ensure_pc { s with reconnectTimer := none }
    cases ha : (ensureConnectedStep { s with reconnectTimer := none }).2 with
    | started a =>
      unfold connectBegin
      by_cases hd : (ensureConnectedStep { s with reconnectTimer := none
        }).1.destroyed
      · simp [ha, hd, connectSettle, h.1, h.2]
      · simp [ha, hd, h.1, h.2]
    | alreadyConnected => simp [ha, h.1, h.2]
    | awaitExisting a => simp [ha, h.1, h.2]

/-- subscribe does not touch the pending map or the completion log. -/
theorem subscribe_pc (s : GatewayState) (key : String) (l : Nat) :
    (subscribe s key l).1.completions = s.completions ∧
    (subscribe s key l).1.pending = s.pending := by
  unfold subscribe
  cases hk : s.keyMap.lookup key <;> simp [hk]

/-- Calling an unsubscribe capability does not touch the pending map or
the completion log. -/
theorem callUnsub_pc (s : GatewayState) (u : Unsub) :
    (callUnsub s u).completions = s.completions ∧
    (callUnsub s u).pending = s.pending := by
  unfold callUnsub
  by_cases hp : (heapGet (heapDel s.heap u.setId u.listener) u.setId).isEmpty <;>
    simp [hp]

/-- Every transition of the singleton conserves or (on registration)
increments the sum of completions and pending occurrences of an id. -/
theorem stepCount (s : GatewayState) (e : GEvent) (id : String) :
    completedCount (stepEvent s e) id + (stepEvent s e).pending.count id
      ≤ completedCount s id + s.pending.count id +
        (if isRegister id e then 1 else 0) := by
  cases e with
  | frameRes id0 ok payload err =>
    have h := pendCount_onResponseFrame s id0 id ok payload err
    simp only [stepEvent, isRegister]
    omega
  | frameEvent ev => simp [stepEvent, isRegister]
  | rpcTimeoutFire id0 =>
    have h := pendCount_onRpcTimeout s id0 id
    simp only [stepEvent, isRegister]
    omega
  | callRegister id0 =>
    simp only [stepEvent, isRegister, registerCall, completedCount]
    by_cases he : id0 = id
    · subst he
      simp [List.count_append]
      omega
    · have hne : (id == id0) = false := by
        simp only [beq_eq_false_iff_ne, ne_eq]
        exact fun h => he h.symm
      have hne2 : (id0 == id) = false := by simp [he]
      simp [List.count_append, hne, hne2, List.count_singleton]
  | socketClose =>
    have h := pendCount_onClose s id
    simp only [stepEvent, isRegister]
    omega
  | socketOpen => simp [stepEvent, isRegister, onSocketOpen, completedCount]
  | reconnectFire =>
    have h := reconnectFire_pc s
    simp only [stepEvent, isRegister, completedCount, h.1, h.2]
    simp [completedCount]
  | ensureCall =>
    have h := ensure_pc s
    simp only [stepEvent, isRegister, completedCount, h.1, h.2]
    simp [completedCount]
  | connectSettled => simp [stepEvent, isRegister, connectSettle, completedCount]
  | connectOk => simp [stepEvent, isRegister, connectSuccess, completedCount]
  | callDestroy => simp [stepEvent, isRegister, destroy, completedCount]
  | subscribeCall key l =>
    have h := subscribe_pc s key l
    simp only [stepEvent, isRegister, completedCount, h.1, h.2]
    simp [completedCount]
  | unsubscribeCall u =>
    have h := callUnsub_pc s u
    simp only [stepEvent, isRegister, completedCount, h.1, h.2]
    simp [completedCount]

/-- Over a run, completions plus pending occurrences of an id are
bounded by its initial sum plus the number of registrations. -/
theorem runCount (id : String) (evs : List GEvent) : ∀ s : GatewayState,
    completedCount (runEvents s evs) id + (runEvents s evs).pending.count id
      ≤ completedCount s id + s.pending.count id + countRegisters evs id := by
  induction evs with
  | nil => intro s; simp [runEvents, countRegisters]
  | cons e rest ih =>
    intro s
    have h1 := stepCount s e id
    have h2 := ih (stepEvent s e)
    have h3 : countRegisters (e :: rest) id =
        countRegisters rest id + (if isRegister id e then 1 else 0) := by
      simp [countRegisters, List.countP_cons]
    simp only [runEvents, List.foldl_cons] at *
    omega

/-- Every transition preserves the destroyed flag once set, and never
re-arms a reconnect timer on a destroyed manager. -/
theorem step_dead (s : GatewayState) (e : GEvent)
    (h1 : s.destroyed = true) (h2 : s.reconnectTimer = none) :
    (stepEvent s e).destroyed = true ∧
    (stepEvent s e).reconnectTimer = none := by
  cases e with
  | frameRes id0 ok payload err =>
    simp only [stepEvent]
    unfold onResponseFrame
    constructor <;> (split <;> simp [h1, h2])
  | frameEvent ev => simp [stepEvent, h1, h2]
  | rpcTimeoutFire id0 =>
    simp only [stepEvent]
    unfold onRpcTimeout
    constructor <;> (split <;> simp [h1, h2])
  | callRegister id0 => simp [stepEvent, registerCall, h1, h2]
  | socketClose => simp [stepEvent, onClose, h1, h2]
  | socketOpen => simp [stepEvent, onSocketOpen, h1, h2]
  | reconnectFire => simp [stepEvent, onReconnectFire, h1, h2]
  | ensureCall =>
    unfold stepEvent ensureConnectedStep
    by_cases hc : isConnected s
    · simp [hc, h1, h2]
    · cases hcp : s.connectPromise <;> simp [hc, hcp, h1, h2]
  | connectSettled => simp [stepEvent, connectSettle, h1, h2]
  | connectOk => simp [stepEvent, connectSuccess, h1, h2]
  | callDestroy => simp [stepEvent, destroy]
  | subscribeCall key l =>
    unfold stepEvent subscribe
    cases hk : s.keyMap.lookup key <;> simp [hk, h1, h2]
  | unsubscribeCall u =>
    unfold stepEvent callUnsub
    by_cases hp : (heapGet (heapDel s.heap u.setId u.listener) u.setId).isEmpty <;>
      simp [hp, h1, h2]

/-- Over any run from a destroyed state with no armed timer, no
reconnect timer is ever armed again. -/
theorem run_dead (evs : List GEvent) : ∀ s : GatewayState,
    s.destroyed = true → s.reconnectTimer = none →
    (runEvents s evs).destroyed = true ∧
    (runEvents s evs).reconnectTimer = none := by
  induction evs with
  | nil => intro s h1 h2; exact ⟨h1, h2⟩
  | cons e rest ih =>
    intro s h1 h2
    have h := step_dead s e h1 h2
    simpa [runEvents, List.foldl_cons] using ih (stepEvent s e) h.1 h.2

/-- No bridge step ever clears the suppression flag. -/
theorem bridgeStep_flag_mono (k : String) (st : BridgeState)
    (e : GatewayEvent) (h : st.gotAgentStream = true) :
    (bridgeStep k st e).1.gotAgentStream = true := by
  simp only [bridgeStep]
  split_ifs <;> simp [h]

/-- An agent event with stream assistant or tool sets the suppression
flag. -/
theorem bridgeStep_raw (k : String) (st : BridgeState) (e : GatewayEvent)
    (h : IsRawToken e) :
    (bridgeStep k st e).1.gotAgentStream = true := by
  rcases h with ⟨hev, ha | ht⟩
  · simp only [bridgeStep, hev, ha]
    split_ifs <;> simp
  · simp only [bridgeStep, hev, ht]
    split_ifs <;> simp_all

/-- With the suppression flag set, a chat delta event writes nothing and
leaves the bridge unchanged. -/
theorem bridgeStep_suppress (k : String) (st : BridgeState)
    (c : GatewayEvent) (hs : st.gotAgentStream = true)
    (hc : IsChatDelta c) :
    bridgeStep k st c = (st, []) := by
  obtain ⟨hev, hkind⟩ := hc
  have hne : c.event ≠ "agent" := by simp [hev]
  simp [bridgeStep, hev, hkind, hs, hne]

/-- Splitting a bridge run at a list append. -/
theorem bridgeRun_append (k : String) (st : BridgeState)
    (xs ys : List GatewayEvent) :
    bridgeRun k st (xs ++ ys) =
      ((bridgeRun k (bridgeRun k st xs).1 ys).1,
       (bridgeRun k st xs).2 ++ (bridgeRun k (bridgeRun k st xs).1 ys).2) := by
  induction xs generalizing st with
  | nil => simp [bridgeRun]
  | cons e rest ih => simp [bridgeRun, ih]

/-- The suppression flag stays set over any bridge run. -/
theorem bridgeRun_flag (k : String) (evs : List GatewayEvent) :
    ∀ st : BridgeState, st.gotAgentStream = true →
    ((bridgeRun k st evs).1).gotAgentStream = true := by
  induction evs with
  | nil => intro st h; simpa [bridgeRun] using h
  | cons e rest ih =>
    intro st h
    simp only [bridgeRun]
    exact ih (bridgeStep k st e).1 (bridgeStep_flag_mono k st e h)

/-! Claim theorems. -/

/-- Claim C2: an ensureConnected call on a live connection returns at
once without side effects; a call during an in-flight connect attempt
returns that same attempt instead of starting a second one; any number
of repeated ensureConnected calls start at most one new connect attempt;
and one connect attempt opens exactly one new socket. -/
theorem claim_C2 (s t u v w : GatewayState) (a n : Nat)
    (h1 : isConnected s = true)
    (h2 : isConnected t = false) (h3 : t.connectPromise = some a)
    (hcb : connectBegin v = Except.ok w) :
    ensureConnectedStep s = (s, EnsureAction.alreadyConnected) ∧
    ensureConnectedStep t = (t, EnsureAction.awaitExisting a) ∧
    (ensureIter n u).attemptsStarted ≤ u.attemptsStarted + 1 ∧
    w.nextSocketId = v.nextSocketId + 1 ∧ w.ws = some (v.nextSocketId, false) := by
  refine ⟨?_, ?_, ?_, ?_, ?_⟩
  · simp [ensureConnectedStep, h1]
  · simp [ensureConnectedStep, h2, h3]
  · cases n with
    | zero => simp [ensureIter]
    | succ m =>
      have h := ensure_one u
      calc (ensureIter (m + 1) u).attemptsStarted
          = (ensureIter m (ensureConnectedStep u).1).attemptsStarted := rfl
        _ = (ensureConnectedStep u).1.attemptsStarted := by
              rw [ensureIter_fix m _ h.1]
        _ ≤ u.attemptsStarted + 1 := h.2
  · unfold connectBegin at hcb
    by_cases hd : v.destroyed
    · simp [hd] at hcb
    · simp [hd] at hcb
      rw [← hcb]
  · unfold connectBegin at hcb
    by_cases hd : v.destroyed
    · simp [hd] at hcb
    · simp [hd] at hcb
      rw [← hcb]

/-- Claim C2 witness. -/
theorem claim_C2_witness :
    ensureConnectedStep { connected := true, ws := some (0, true) }
      = ({ connected := true, ws := some (0, true) },
         EnsureAction.alreadyConnected) ∧
    ensureConnectedStep { connectPromise := some 3 }
      = ({ connectPromise := some 3 }, EnsureAction.awaitExisting 3) ∧
    (ensureIter 5 initialState).attemptsStarted ≤
      initialState.attemptsStarted + 1 ∧
    ({ initialState with ws := some (0, false), nextSocketId := 1
        } : GatewayState).nextSocketId = initialState.nextSocketId + 1 ∧
    ({ initialState with ws := some (0, false), nextSocketId := 1
        } : GatewayState).ws = some (initialState.nextSocketId, false) :=
  claim_C2 { connected := true, ws := some (0, true) }
    { connectPromise := some 3 } initialState initialState
    { initialState with ws := some (0, false), nextSocketId := 1 } 3 5
    rfl rfl rfl rfl

/-- Claim C1: the RPC timeout defaults to 30 seconds; when the timeout
fires for a pending call the call is removed from the outstanding map
and rejected with the RPC timeout error at that moment; a response with
that id arriving afterwards changes nothing, as does any response whose
id has no matching pending call; and over any run of the singleton in
which an id is registered at most once, that id is settled at most once
(the caller is never resolved or rejected a second time). -/
theorem claim_C1 (s : GatewayState) (id id2 : String) (ok : Bool)
    (payload : Option Json) (err : Option ErrInfo) (evs : List GEvent)
    (h1 : s.pending.count id = 1)
    (h2 : s.pending.contains id2 = false)
    (h3 : countRegisters evs id ≤ 1) :
    rpcTimeoutMs none = 30000 ∧
    onRpcTimeout s id =
      { s with pending := s.pending.erase id,
               completions := s.completions ++
                 [(id, RpcOutcome.rejected ("RPC timeout waiting for " ++ id))] } ∧
    onResponseFrame (onRpcTimeout s id) id ok payload err =
      onRpcTimeout s id ∧
    onResponseFrame s id2 ok payload err = s ∧
    completedCount (runEvents initialState evs) id ≤ 1 := by
  have hmem : id ∈ s.pending := by
    have : 0 < s.pending.count id := by omega
    exact List.count_pos_iff.mp this
  have hc : s.pending.contains id = true := List.elem_iff.mpr hmem
  have e2 : onRpcTimeout s id =
      { s with pending := s.pending.erase id,
               completions := s.completions ++
                 [(id, RpcOutcome.rejected ("RPC timeout waiting for " ++ id))] } := by
    unfold onRpcTimeout
    rw [hc]
    simp
  refine ⟨rfl, e2, ?_, ?_, ?_⟩
  · have hzero : (s.pending.erase id).count id = 0 := by
      rw [List.count_erase_self]
      omega
    have hnm : id ∉ s.pending.erase id := List.count_eq_zero.mp hzero
    have hcc : (s.pending.erase id).contains id = false := by
      cases hb : (s.pending.erase id).contains id
      · rfl
      · exact absurd (List.elem_iff.mp hb) hnm
    rw [e2]
    unfold onResponseFrame
    simp only [hcc]
    simp
  · unfold onResponseFrame
    rw [h2]
    simp
  · have hb := runCount id evs initialState
    have hz : completedCount initialState id = 0 := rfl
    have hz2 : initialState.pending.count id = 0 := rfl
    omega

/-- Claim C1 witness. -/
theorem claim_C1_witness :
    rpcTimeoutMs none = 30000 ∧
    onRpcTimeout { pending := ["A", "B"] } "A" =
      { initialState with
        pending := ["B"]
        completions :=
          [("A", RpcOutcome.rejected ("RPC timeout waiting for " ++ "A"))] } ∧
    onResponseFrame (onRpcTimeout { pending := ["A", "B"] } "A") "A" true
        none none = onRpcTimeout { pending := ["A", "B"] } "A" ∧
    onResponseFrame { pending := ["A", "B"] } "C" true none none =
      { pending := ["A", "B"] } ∧
    completedCount (runEvents initialState [GEvent.callRegister "A",
      GEvent.rpcTimeoutFire "A", GEvent.frameRes "A" true none none]) "A" ≤ 1 :=
  claim_C1 { pending := ["A", "B"] } "A" "C" true none none
    [GEvent.callRegister "A", GEvent.rpcTimeoutFire "A",
     GEvent.frameRes "A" true none none] (by decide) (by decide) (by decide)

/-- Claim C3: destroy sets the terminal flag, clears both listener
registries and the reconnect timer, and closes the socket; the resulting
close event rejects every outstanding pending call with the
connection-closed error and clears the pending map, scheduling no
reconnect; a subsequent rpc call starts a connect that fails immediately
with the destroyed error; and over any further run no reconnect timer is
ever armed. -/
theorem claim_C3 (s : GatewayState) (evs : List GEvent)
    (hws : s.ws.isSome = true) (hcp : s.connectPromise = none) :
    (destroy s).1.destroyed = true ∧
    (destroy s).1.keyMap = [] ∧
    (destroy s).1.globalListeners = [] ∧
    (destroy s).1.reconnectTimer = none ∧
    (destroy s).2 = true ∧
    (onClose (destroy s).1).completions = s.completions ++
      s.pending.map (fun id => (id, RpcOutcome.rejected "Connection closed")) ∧
    (onClose (destroy s).1).pending = [] ∧
    (onClose (destroy s).1).reconnectTimer = none ∧
    (ensureConnectedStep (onClose (destroy s).1)).2 =
      EnsureAction.started s.attemptsStarted ∧
    connectBegin (ensureConnectedStep (onClose (destroy s).1)).1 =
      Except.error "Connection destroyed" ∧
    (runEvents (onClose (destroy s).1) evs).reconnectTimer = none := by
  refine ⟨rfl, rfl, rfl, rfl, hws, ?_, ?_, ?_, ?_, ?_, ?_⟩
  · simp [destroy, onClose]
  · simp [destroy, onClose]
  · simp [destroy, onClose]
  · simp [destroy, onClose, ensureConnectedStep, isConnected, hcp]
  · simp [destroy, onClose, ensureConnectedStep, isConnected, hcp, connectBegin]
  · have hd : (onClose (destroy s).1).destroyed = true := by
      simp [destroy, onClose]
    have ht : (onClose (destroy s).1).reconnectTimer = none := by
      simp [destroy, onClose]
    exact (run_dead evs (onClose (destroy s).1) hd ht).2

/-- Claim C7 counterexample: the claim as stated says that after ANY
agent event is observed, a later chat delta is suppressed.  Here an
agent event with stream lifecycle (phase start) is observed first, yet
the later chat delta event still writes a delta message: only agent
events with stream assistant or tool set the suppression flag. -/
theorem claim_C7_counterexample :
    (bridgeRun "K" {}
      [⟨"agent", Json.obj [("stream", Json.str "lifecycle"),
          ("phase", Json.str "start")], none⟩,
       ⟨"chat", Json.obj [("kind", Json.str "delta"),
          ("text", Json.str "x")], none⟩]).2 = [SseMsg.delta "x" "K"] := rfl

/-- Claim C7 (amended): the suppression flag is set by agent events with
stream assistant or tool (not by every agent event); once set it is
never cleared by any later event; while it is set a chat delta event
writes nothing and changes nothing; hence in any delivered sequence a
chat delta event that follows a raw-token agent event contributes no
output; and an agent event with stream assistant and text Hi emits
exactly one delta message with text Hi. -/
theorem claim_C7 (k : String) (st st2 : BridgeState) (e c c2 : GatewayEvent)
    (evs1 evs2 : List GatewayEvent)
    (h1 : IsRawToken e) (h2 : IsChatDelta c)
    (hst : st2.gotAgentStream = true) :
    (bridgeStep k st e).1.gotAgentStream = true ∧
    (bridgeStep k st2 c2).1.gotAgentStream = true ∧
    bridgeStep k st2 c = (st2, []) ∧
    (bridgeRun k st (evs1 ++ e :: (evs2 ++ [c]))).2 =
      (bridgeRun k st (evs1 ++ e :: evs2)).2 ∧
    bridgeRun k {} [⟨"agent", Json.obj [("stream", Json.str "assistant"),
        ("text", Json.str "Hi")], none⟩] =
      ({ closed := false, gotAgentStream := true }, [SseMsg.delta "Hi" k]) := by
  refine ⟨bridgeStep_raw k st e h1, bridgeStep_flag_mono k st2 c2 hst,
    bridgeStep_suppress k st2 c hst h2, ?_, rfl⟩
  have hsplit : evs1 ++ e :: (evs2 ++ [c]) = (evs1 ++ e :: evs2) ++ [c] := by
    simp
  rw [hsplit, bridgeRun_append]
  have hflag : ((bridgeRun k st (evs1 ++ e :: evs2)).1).gotAgentStream = true := by
    rw [bridgeRun_append]
    simp only [bridgeRun]
    exact bridgeRun_flag k evs2 _
      (bridgeStep_raw k (bridgeRun k st evs1).1 e h1)
  have hsup := bridgeStep_suppress k
    (bridgeRun k st (evs1 ++ e :: evs2)).1 c hflag h2
  simp [bridgeRun, hsup]

/-- Claim C7 witness. -/
theorem claim_C7_witness :
    (bridgeStep "S" {} ⟨"agent", Json.obj [("stream", Json.str "tool"),
        ("name", Json.str "bash")], none⟩).1.gotAgentStream = true ∧
    (bridgeStep "S" { gotAgentStream := true }
        ⟨"tick", Json.obj [], none⟩).1.gotAgentStream = true ∧
    bridgeStep "S" { gotAgentStream := true }
        ⟨"chat", Json.obj [("kind", Json.str "delta"),
          ("text", Json.str "dup")], none⟩ =
      ({ gotAgentStream := true }, []) ∧
    (bridgeRun "S" {} ([] ++ ⟨"agent", Json.obj [("stream", Json.str "tool"),
        ("name", Json.str "bash")], none⟩ ::
        ([] ++ [⟨"chat", Json.obj [("kind", Json.str "delta"),
          ("text", Json.str "dup")], none⟩]))).2 =
      (bridgeRun "S" {} ([] ++ ⟨"agent", Json.obj [("stream", Json.str "tool"),
        ("name", Json.str "bash")], none⟩ :: [])).2 ∧
    bridgeRun "S" {} [⟨"agent", Json.obj [("stream", Json.str "assistant"),
        ("text", Json.str "Hi")], none⟩] =
      ({ closed := false, gotAgentStream := true }, [SseMsg.delta "Hi" "S"]) :=
  claim_C7 "S" {} { gotAgentStream := true }
    ⟨"agent", Json.obj [("stream", Json.str "tool"),
      ("name", Json.str "bash")], none⟩
    ⟨"chat", Json.obj [("kind", Json.str "delta"),
      ("text", Json.str "dup")], none⟩
    ⟨"tick", Json.obj [], none⟩ [] []
    (by decide) (by decide) rfl

/-- Concrete pre-destroy state for the claim C3 witness. -/
def c3State : GatewayState :=
  { ws := some (0, true)
    connected := true
    pending := ["A"]
    globalListeners := [3]
    keyMap := [("K", 0)]
    heap := [(0, [7])] }

/-- Claim C3 witness. -/
theorem claim_C3_witness :
    (destroy c3State).1.destroyed = true ∧
    (destroy c3State).1.keyMap = [] ∧
    (destroy c3State).1.globalListeners = [] ∧
    (destroy c3State).1.reconnectTimer = none ∧
    (destroy c3State).2 = true ∧
    (onClose (destroy c3State).1).completions =
      [("A", RpcOutcome.rejected "Connection closed")] ∧
    (onClose (destroy c3State).1).pending = [] ∧
    (onClose (destroy c3State).1).reconnectTimer = none ∧
    (ensureConnectedStep (onClose (destroy c3State).1)).2 =
      EnsureAction.started 0 ∧
    connectBegin (ensureConnectedStep (onClose (destroy c3State).1)).1 =
      Except.error "Connection destroyed" ∧
    (runEvents (onClose (destroy c3State).1) [GEvent.socketClose,
      GEvent.ensureCall, GEvent.reconnectFire]).reconnectTimer = none :=
  claim_C3 c3State
    [GEvent.socketClose, GEvent.ensureCall, GEvent.reconnectFire] rfl rfl

/-- Claim C5 (amended): a response frame matching a pending call resolves
the caller with exactly the payload when ok is true; when ok is false it
rejects with an error carrying only the peer error message (or the
fallback message when the error object is absent) — the peer error code
is not propagated. -/
theorem claim_C5 (s : GatewayState) (id : String) (payload : Option Json)
    (e : ErrInfo) (h : s.pending.contains id = true) :
    onResponseFrame s id true payload none =
      { s with pending := s.pending.erase id,
               completions := s.completions ++
                 [(id, RpcOutcome.resolved payload)] } ∧
    onResponseFrame s id false payload (some e) =
      { s with pending := s.pending.erase id,
               completions := s.completions ++
                 [(id, RpcOutcome.rejected e.message)] } ∧
    onResponseFrame s id false payload none =
      { s with pending := s.pending.erase id,
               completions := s.completions ++
                 [(id, RpcOutcome.rejected "gateway error")] } := by
  refine ⟨?_, ?_, ?_⟩ <;>
    · unfold onResponseFrame
      rw [h]
      simp [Option.map, Option.getD]

/-- Claim C5 witness: the reference scenario — a response with ok true
and payload carrying x maps to a resolution with exactly that payload. -/
theorem claim_C5_witness :
    onResponseFrame { pending := ["A"] } "A" true
        (some (Json.obj [("x", Json.num 1)])) none =
      { initialState with
        pending := []
        completions := [("A", RpcOutcome.resolved
          (some (Json.obj [("x", Json.num 1)])))] } ∧
    onResponseFrame { pending := ["A"] } "A" false
        (some (Json.obj [("x", Json.num 1)])) (some ⟨"E_PERM", "boom", none⟩) =
      { initialState with
        pending := []
        completions := [("A", RpcOutcome.rejected "boom")] } ∧
    onResponseFrame { pending := ["A"] } "A" false
        (some (Json.obj [("x", Json.num 1)])) none =
      { initialState with
        pending := []
        completions := [("A", RpcOutcome.rejected "gateway error")] } :=
  claim_C5 { pending := ["A"] } "A" (some (Json.obj [("x", Json.num 1)]))
    ⟨"E_PERM", "boom", none⟩ rfl

/-- Claim C5 counterexample: the claim as stated says the rejection
carries the peer error code and message.  Two response frames differing
only in the error code produce identical states, so no part of the
rejection carries the code; only the message survives. -/
theorem claim_C5_counterexample :
    onResponseFrame { pending := ["A"] } "A" false none
        (some { code := "E_PERM", message := "boom" }) =
      onResponseFrame { pending := ["A"] } "A" false none
        (some { code := "E_TIMEOUT", message := "boom" }) ∧
    (onResponseFrame { pending := ["A"] } "A" false none
        (some { code := "E_PERM", message := "boom" })).completions =
      [("A", RpcOutcome.rejected "boom")] :=
  ⟨rfl, rfl⟩

/-- Dispatch on one event invokes the same listeners whatever each
listener callback does: the per-listener try-catch makes the trace
independent of the behaviours. -/
theorem dispatch_beh_irrel (beh beh2 : ListenerBeh) (s : GatewayState)
    (ev : GatewayEvent) :
    dispatchEventFrame beh s ev = dispatchEventFrame beh2 s ev := by
  unfold dispatchEventFrame
  cases h : extractSessionKey ev.payload <;> simp [runListenersCatching_eq]

/-- Claim C4: session-key extraction checks, in order, a top-level
sessionKey string field, a top-level session string field, then a nested
data.sessionKey string field, first match winning; an event with no
extractable key is delivered only to global listeners; every global
listener is invoked; and a listener registered for exactly key K (and
not globally) is invoked exactly once for an event carrying key K and
never for an event carrying a different key. -/
theorem claim_C4 (s : GatewayState) (beh : ListenerBeh) (l m : Nat)
    (K K2 k1 k2 k3 : String) (p q r dj : Json)
    (ev0 evK evK2 : GatewayEvent)
    (h1 : p.getStr "sessionKey" = some k1)
    (h2 : q.getStr "sessionKey" = none)
    (h3 : q.getStr "session" = some k2)
    (h4 : r.getStr "sessionKey" = none)
    (h5 : r.getStr "session" = none)
    (h6 : r.get "data" = some dj)
    (h7 : jsTruthy dj = true)
    (h8 : dj.getStr "sessionKey" = some k3)
    (h9 : extractSessionKey ev0.payload = none)
    (h10 : extractSessionKey evK.payload = some K)
    (h11 : (keyListeners s K).Nodup)
    (h12 : l ∈ keyListeners s K)
    (h13 : l ∉ s.globalListeners)
    (h14 : extractSessionKey evK2.payload = some K2)
    (h15 : l ∉ keyListeners s K2)
    (h16 : m ∈ s.globalListeners) :
    extractSessionKey p = some k1 ∧
    extractSessionKey q = some k2 ∧
    extractSessionKey r = some k3 ∧
    dispatchEventFrame beh s ev0 = s.globalListeners ∧
    m ∈ dispatchEventFrame beh s evK ∧
    (dispatchEventFrame beh s evK).count l = 1 ∧
    (dispatchEventFrame beh s evK2).count l = 0 := by
  refine ⟨?_, ?_, ?_, ?_, ?_, ?_, ?_⟩
  · unfold extractSessionKey
    rw [h1]
  · unfold extractSessionKey
    rw [h2, h3]
  · unfold extractSessionKey
    rw [h4, h5, h6]
    simp [h7, h8]
  · exact dispatch_none beh s ev0 h9
  · rw [dispatch_some beh s evK K h10]
    exact List.mem_append_left _ h16
  · rw [dispatch_some beh s evK K h10, List.count_append]
    rw [List.count_eq_zero.mpr h13, List.count_eq_one_of_mem h11 h12]
  · rw [dispatch_some beh s evK2 K2 h14, List.count_append]
    rw [List.count_eq_zero.mpr h13, List.count_eq_zero.mpr h15]

/-- Concrete router state for the claim C4 witness. -/
def c4State : GatewayState :=
  { globalListeners := [9]
    keyMap := [("K", 0)]
    heap := [(0, [5])] }

/-- Claim C4 witness. -/
theorem claim_C4_witness :
    extractSessionKey (Json.obj [("sessionKey", Json.str "k1"),
      ("session", Json.str "zz")]) = some "k1" ∧
    extractSessionKey (Json.obj [("session", Json.str "k2")]) = some "k2" ∧
    extractSessionKey (Json.obj [("data",
      Json.obj [("sessionKey", Json.str "k3")])]) = some "k3" ∧
    dispatchEventFrame (fun _ _ => Except.ok ()) c4State
      ⟨"tick", Json.obj [], none⟩ = [9] ∧
    9 ∈ dispatchEventFrame (fun _ _ => Except.ok ()) c4State
      ⟨"chat", Json.obj [("sessionKey", Json.str "K")], none⟩ ∧
    (dispatchEventFrame (fun _ _ => Except.ok ()) c4State
      ⟨"chat", Json.obj [("sessionKey", Json.str "K")], none⟩).count 5 = 1 ∧
    (dispatchEventFrame (fun _ _ => Except.ok ()) c4State
      ⟨"chat", Json.obj [("session", Json.str "K2")], none⟩).count 5 = 0 :=
  claim_C4 c4State (fun _ _ => Except.ok ()) 5 9 "K" "K2" "k1" "k2" "k3"
    (Json.obj [("sessionKey", Json.str "k1"), ("session", Json.str "zz")])
    (Json.obj [("session", Json.str "k2")])
    (Json.obj [("data", Json.obj [("sessionKey", Json.str "k3")])])
    (Json.obj [("sessionKey", Json.str "k3")])
    ⟨"tick", Json.obj [], none⟩
    ⟨"chat", Json.obj [("sessionKey", Json.str "K")], none⟩
    ⟨"chat", Json.obj [("session", Json.str "K2")], none⟩
    rfl rfl rfl rfl rfl rfl rfl rfl rfl rfl
    (by decide) (by decide) (by decide) rfl (by decide) (by decide)

/-- Claim C8: an exception thrown by a listener is caught and discarded:
the dispatch trace is identical to the trace under any other (for
example never-throwing) behaviours, every key listener and every global
listener registered for an event is still invoked, and the dispatch of
every subsequent event is unaffected by what earlier listeners did. -/
theorem claim_C8 (s : GatewayState) (beh beh2 : ListenerBeh)
    (ev : GatewayEvent) (evs : List GatewayEvent) (l m : Nat) (k : String)
    (hk : extractSessionKey ev.payload = some k)
    (hl : l ∈ keyListeners s k) (hm : m ∈ s.globalListeners) :
    dispatchEventFrame beh s ev = dispatchEventFrame beh2 s ev ∧
    l ∈ dispatchEventFrame beh s ev ∧
    m ∈ dispatchEventFrame beh s ev ∧
    evs.map (dispatchEventFrame beh s) = evs.map (dispatchEventFrame beh2 s) := by
  refine ⟨dispatch_beh_irrel beh beh2 s ev, ?_, ?_, ?_⟩
  · rw [dispatch_some beh s ev k hk]
    exact List.mem_append_right _ hl
  · rw [dispatch_some beh s ev k hk]
    exact List.mem_append_left _ hm
  · have hfun : dispatchEventFrame beh s = dispatchEventFrame beh2 s :=
      funext (fun e => dispatch_beh_irrel beh beh2 s e)
    rw [hfun]

/-- Concrete router state for the claim C8 witness. -/
def c8State : GatewayState :=
  { globalListeners := [1]
    keyMap := [("S", 0)]
    heap := [(0, [2, 3])] }

/-- Claim C8 witness: even when every listener throws, the dispatch
trace matches the one where no listener throws. -/
theorem claim_C8_witness :
    dispatchEventFrame (fun _ _ => Except.error "boom") c8State
      ⟨"chat", Json.obj [("sessionKey", Json.str "S")], none⟩ =
    dispatchEventFrame (fun _ _ => Except.ok ()) c8State
      ⟨"chat", Json.obj [("sessionKey", Json.str "S")], none⟩ ∧
    2 ∈ dispatchEventFrame (fun _ _ => Except.error "boom") c8State
      ⟨"chat", Json.obj [("sessionKey", Json.str "S")], none⟩ ∧
    1 ∈ dispatchEventFrame (fun _ _ => Except.error "boom") c8State
      ⟨"chat", Json.obj [("sessionKey", Json.str "S")], none⟩ ∧
    [⟨"chat", Json.obj [("sessionKey", Json.str "S")], none⟩,
     ⟨"evt", Json.obj [], none⟩].map
        (dispatchEventFrame (fun _ _ => Except.error "boom") c8State) =
    [⟨"chat", Json.obj [("sessionKey", Json.str "S")], none⟩,
     ⟨"evt", Json.obj [], none⟩].map
        (dispatchEventFrame (fun _ _ => Except.ok ()) c8State) :=
  claim_C8 c8State (fun _ _ => Except.error "boom") (fun _ _ => Except.ok ())
    ⟨"chat", Json.obj [("sessionKey", Json.str "S")], none⟩
    [⟨"chat", Json.obj [("sessionKey", Json.str "S")], none⟩,
     ⟨"evt", Json.obj [], none⟩] 2 1 "S" rfl (by decide) (by decide)

/-- Claim C6: after a socket close on a non-destroyed manager a reconnect
timer is pending; scheduling while a timer is pending is a no-op (never
a second timer); a scheduled reconnect uses the current backoff delay
and doubles the stored delay up to the 30 second ceiling; a successful
connect resets the delay to the 1 second floor. -/
theorem claim_C6 (s t u : GatewayState) (dd : Nat)
    (h1 : s.destroyed = false)
    (h2 : t.reconnectTimer = none)
    (h3 : u.reconnectTimer = some dd) :
    (onClose s).reconnectTimer.isSome = true ∧
    scheduleReconnect u = u ∧
    scheduleReconnect t =
      { t with reconnectTimer := some t.reconnectDelay,
               reconnectDelay := min (t.reconnectDelay * 2) maxReconnectDelay } ∧
    (connectSuccess s).reconnectDelay = 1000 := by
  refine ⟨?_, ?_, ?_, ?_⟩
  · unfold onClose
    simp only [h1]
    unfold scheduleReconnect
    cases ht : s.reconnectTimer <;> simp [h1, ht]
  · simp [scheduleReconnect, h3]
  · simp [scheduleReconnect, h2]
  · rfl

/-- Claim C6 witness. -/
theorem claim_C6_witness :
    (onClose { reconnectDelay := 4000 }).reconnectTimer.isSome = true ∧
    scheduleReconnect { reconnectTimer := some 2000 } =
      { reconnectTimer := some 2000 } ∧
    scheduleReconnect { reconnectDelay := 16000 } =
      { initialState with
        reconnectTimer := some 16000
        reconnectDelay := min (16000 * 2) maxReconnectDelay } ∧
    (connectSuccess { reconnectDelay := 4000 }).reconnectDelay = 1000 :=
  claim_C6 { reconnectDelay := 4000 } { reconnectDelay := 16000 }
    { reconnectTimer := some 2000 } 2000 rfl rfl rfl

/-- A listener behaviour that never throws. -/
def okBeh : ListenerBeh := fun _ _ => Except.ok ()

/-- Claim C9 scenario, step 1: subscribe listener 1 to key K. -/
def c9First : GatewayState × Unsub := subscribe initialState "K" 1

/-- Claim C9 scenario, step 2: the first call of the returned
unsubscribe capability empties the Set and deletes the key. -/
def c9Emptied : GatewayState := callUnsub c9First.1 c9First.2

/-- Claim C9 scenario, step 3: listener 2 subscribes to the same key,
creating a fresh Set. -/
def c9Resub : GatewayState × Unsub := subscribe c9Emptied "K" 2

/-- Claim C9 scenario, step 4: a second call of the FIRST capability.
Per the claim this is a no-op; in the code the closure still sees its
captured, now empty Set and therefore unconditionally deletes key K
from the session-listener map — removing the registration of listener 2. -/
def c9After : GatewayState := callUnsub c9Resub.1 c9First.2

/-- An event carrying session key K. -/
def c9Event : GatewayEvent :=
  ⟨"chat", Json.obj [("sessionKey", Json.str "K")], none⟩

/-- Claim C9 failing input, evaluated: before the second call of the
stale capability, an event for key K reaches listener 2; after it, the
key has been removed from the registry and the event reaches nobody, so
the second call was not a no-op and did not remove exactly its own
listener. -/
theorem claim_C9_bug_eval :
    dispatchEventFrame okBeh c9Resub.1 c9Event = [2] ∧
    dispatchEventFrame okBeh c9After c9Event = [] ∧
    c9Resub.1.keyMap = [("K", 1)] ∧
    c9After.keyMap = [] ∧
    keyListeners c9After "K" = [] :=
  ⟨rfl, rfl, rfl, rfl, rfl⟩

/-- One subscribe of a listener f for key K on the fresh router. -/
def subOnce (K : String) (f : Nat) : GatewayState × Unsub :=
  subscribe initialState K f

/-- A second subscribe of the identical listener f for the same key. -/
def subTwice (K : String) (f : Nat) : GatewayState × Unsub :=
  subscribe (subOnce K f).1 K f

/-- The router state after one (or two deduplicated) subscriptions of
listener f for key K on the fresh router. -/
def oneSubState (K : String) (f : Nat) : GatewayState :=
  { initialState with
    nextSetId := 1
    heap := [(0, [f])]
    keyMap := [(K, 0)] }

/-- The router state after the listener was removed again: the captured
Set is empty and the key is gone from the map. -/
def removedState : GatewayState :=
  { initialState with
    nextSetId := 1
    heap := [(0, ([] : List Nat))] }

/-- Claim C10: because per-key registrations live in a Set, subscribing
the identical listener twice for one key yields a single registration
(the two returned capabilities are identical); a matching event invokes
the listener exactly once; and calling either capability removes the
listener entirely, after which the key delivers no events to it. -/
theorem claim_C10 (K : String) (f : Nat) (beh : ListenerBeh)
    (ev : GatewayEvent) (hev : extractSessionKey ev.payload = some K) :
    (subOnce K f).2 = (subTwice K f).2 ∧
    keyListeners (subTwice K f).1 K = [f] ∧
    (dispatchEventFrame beh (subTwice K f).1 ev).count f = 1 ∧
    keyListeners (callUnsub (subTwice K f).1 (subOnce K f).2) K = [] ∧
    (dispatchEventFrame beh
      (callUnsub (subTwice K f).1 (subOnce K f).2) ev).count f = 0 ∧
    keyListeners (callUnsub (subTwice K f).1 (subTwice K f).2) K = [] := by
  have h1 : subOnce K f = (oneSubState K f, ⟨0, K, f⟩) := rfl
  have h2 : subTwice K f = (oneSubState K f, ⟨0, K, f⟩) := by
    unfold subTwice
    rw [h1]
    unfold subscribe oneSubState
    simp [List.lookup, heapAdd, List.contains]
  have hu1 : (subOnce K f).2 = ⟨0, K, f⟩ := by rw [h1]
  have hu2 : (subTwice K f).2 = ⟨0, K, f⟩ := by rw [h2]
  have hkl : keyListeners (subTwice K f).1 K = [f] := by
    rw [h2]
    unfold keyListeners heapGet oneSubState
    simp [List.lookup]
  have hun : callUnsub (subTwice K f).1 ⟨0, K, f⟩ = removedState := by
    rw [h2]
    unfold callUnsub heapDel heapGet oneSubState removedState
    simp [List.lookup, initialState]
  have hklu : keyListeners (callUnsub (subTwice K f).1 ⟨0, K, f⟩) K = [] := by
    rw [hun]
    unfold keyListeners removedState
    simp [List.lookup]
  refine ⟨by rw [hu1, hu2], hkl, ?_, ?_, ?_, ?_⟩
  · rw [dispatch_some beh _ ev K hev, hkl, List.count_append]
    have hg : ((subTwice K f).1).globalListeners = [] := by
      rw [h2]
      rfl
    rw [hg]
    simp
  · rw [hu1]
    exact hklu
  · rw [hu1]
    rw [dispatch_some beh _ ev K hev, hklu, List.count_append]
    have hg : (callUnsub (subTwice K f).1 ⟨0, K, f⟩).globalListeners = [] := by
      rw [hun]
      rfl
    rw [hg]
    simp
  · rw [hu2]
    exact hklu

/-- Claim C10 witness. -/
theorem claim_C10_witness :
    (subOnce "k" 5).2 = (subTwice "k" 5).2 ∧
    keyListeners (subTwice "k" 5).1 "k" = [5] ∧
    (dispatchEventFrame okBeh (subTwice "k" 5).1
      ⟨"chat", Json.obj [("sessionKey", Json.str "k")], none⟩).count 5 = 1 ∧
    keyListeners (callUnsub (subTwice "k" 5).1 (subOnce "k" 5).2) "k" = [] ∧
    (dispatchEventFrame okBeh
      (callUnsub (subTwice "k" 5).1 (subOnce "k" 5).2)
      ⟨"chat", Json.obj [("sessionKey", Json.str "k")], none⟩).count 5 = 0 ∧
    keyListeners (callUnsub (subTwice "k" 5).1 (subTwice "k" 5).2) "k" = [] :=
  claim_C10 "k" 5 okBeh
    ⟨"chat", Json.obj [("sessionKey", Json.str "k")], none⟩ rfl

end Webclaw
